import Mathlib

/-!
# Verification of the lyngspice ngspice wrapper (`lyngspice.py`)

Shallow embedding of the foreign-function bridging layer of lyngspice:
the unit/type catalog, the result decoder (`NgSpice.get_data`), the
external-source callback (`NgSpice._GetSRCData`), the lifecycle operations
(`__init__`/`__attach`/`__detach`/`reset`), and the command/run/version
paths (`NgSpice.command`, `NgSpice.load_netlist`, `NgSpice.run`,
`NgSpice.version`, `NgSpice._msg_queue_flush`).

Numeric values crossing the boundary are modelled as rationals (`ℚ`);
the native engine is modelled as an opaque environment supplying command
statuses, emitted output lines and the plot/vector tree.
-/

/-- The `_UNITS` catalog of `lyngspice.py` (23 entries, indexed by the
vector type code). -/
def _UNITS : List String :=
  ["", "s", "Hz", "V", "A", "V/Hz", "A/Hz", "sqrt(V)/Hz", "sqrt(I)/Hz",
   "sqrt(V)", "sqrt(I)", "Hz", "Hz", "", "C", "Ohm", "Ohm", "S", "W",
   "deg", "dB", "C", "Q"]

/-- The `_TYPE` catalog of `lyngspice.py` (23 entries, indexed by the
vector type code). -/
def _TYPE : List String :=
  ["no_type", "time", "frequency", "voltage", "current", "voltage_density",
   "current_density", "sqr_voltage_density", "sqr_current_density",
   "sqr_voltage", "sqr_current", "pole", "zero", "s_parameter",
   "temperature", "res", "impedance", "admittance", "power", "phase",
   "db", "capacitance", "charge"]

/-- Python list indexing `l[i]`: a nonnegative index below the length reads
that element, a negative index `i` with `-len ≤ i` reads `l[len + i]`
(Python's wrap-around), anything else raises `IndexError` (modelled as
`none`). -/
def pyIndex {α : Type} (l : List α) (i : Int) : Option α :=
  if 0 ≤ i then l[i.toNat]?
  else if 0 ≤ i + l.length then l[(i + l.length).toNat]?
  else none

/-- A decoded vector as built by `get_data`: either a real array
(`v_realdata`, or the `z = z.real` branch for `frequency`) or a complex
array of (real, imaginary) pairs. -/
inductive VecData : Type
  | real (xs : List ℚ)
  | comp (xs : List (ℚ × ℚ))
deriving DecidableEq

/-- The fields of one `pvector_info` record returned by `ngGet_Vec_Info`,
together with `query_ok`, which is false when the metadata query itself
raises (the transient mixed-simulation fault the `try` block in `get_data`
guards against). `v_compdata` is the complex buffer reinterpreted as a flat
array of doubles (`cast(vec.v_compdata, POINTER(c_double))`), so element
`2k` is the real part and `2k+1` the imaginary part of complex entry `k`. -/
structure SrcVec where
  query_ok : Bool
  v_name : String
  v_type : Int
  v_flags : Nat
  v_realdata : List ℚ
  v_compdata : List ℚ
  v_length : Nat
deriving DecidableEq

/-- Model of `NgSpice.is_real`: bit 0 of the flag field. -/
def is_real (v_flags : Nat) : Nat := v_flags &&& 0b1

/-- Model of `NgSpice.is_complex`: bit 1 of the flag field. -/
def is_complex (v_flags : Nat) : Nat := v_flags &&& 0b10

/-- The complex branch of `get_data` (lines 338-343): `x_jy` is the flat
double view of the complex buffer; the real parts are the even-index
elements `x_jy[0::2]`; the imaginary parts are the odd-index elements
`x_jy[1::2]`, except for the vector named `frequency`, where `z = z.real`
keeps only the real parts. -/
def complexDecode (vec_name : String) (x_jy : List ℚ) (n : Nat) : VecData :=
  if vec_name ≠ "frequency" then
    .comp ((List.range n).map fun k => ((x_jy[2 * k]?).getD 0, (x_jy[2 * k + 1]?).getD 0))
  else
    .real ((List.range n).map fun k => (x_jy[2 * k]?).getD 0)

/-- The unit/type tag of line 346: `(_UNITS[vec.v_type], _TYPE[vec.v_type])`
with Python indexing; `none` when the lookup raises `IndexError`. -/
def unitsTag (v_type : Int) : Option (String × String) :=
  match pyIndex _UNITS v_type, pyIndex _TYPE v_type with
  | some u, some t => some (u, t)
  | _, _ => none

/-- One iteration of the inner vector loop of `get_data` (the body of the
`try`).  The local variable `z` persists across iterations (it is a
function-local in Python), hence the `Option VecData` state:
  * a failing metadata query raises before anything is touched;
  * the real branch takes `v_length` values of `v_realdata`;
  * the complex branch decodes via `complexDecode`;
  * with neither flag set, `z` keeps its previous value; if it was never
    assigned, line 345 raises `NameError` and the vector is skipped;
  * the data entry (line 345) is recorded before the units lookup
    (line 346), so when `unitsTag` raises the data entry survives while
    the units entry is absent.
Returns (new `z`, data entry if any, units entry if any). -/
def procVec (v : SrcVec) (z : Option VecData) :
    Option VecData × Option (String × VecData) × Option (String × String × String) :=
  if v.query_ok = false then (z, none, none)
  else
    let z1 : Option VecData :=
      if is_real v.v_flags ≠ 0 then some (.real (v.v_realdata.take v.v_length))
      else if is_complex v.v_flags ≠ 0 then
        some (complexDecode v.v_name v.v_compdata v.v_length)
      else z
    match z1 with
    | none => (none, none, none)
    | some zv =>
      (some zv, some (v.v_name, zv),
       (unitsTag v.v_type).map fun ut => (v.v_name, ut.1, ut.2))

/-- The inner vector loop of `get_data` over a whole plot, threading `z`. -/
def procVecs : List SrcVec → Option VecData →
    Option VecData × List (String × VecData) × List (String × String × String)
  | [], z => (z, [], [])
  | v :: vs, z =>
    let s := procVec v z
    let r := procVecs vs s.1
    (r.1, s.2.1.toList ++ r.2.1, s.2.2.toList ++ r.2.2)

/-- The decoded values container: plot name → vector name → data. -/
abbrev DataSet := List (String × List (String × VecData))

/-- The decoded units container: plot name → vector name → (unit, type). -/
abbrev UnitsSet := List (String × List (String × String × String))

/-- The outer plot loop of `get_data`, threading the persistent `z`.
Each plot name is entered into both containers (lines 326-327) before its
vectors are decoded. -/
def getDataAux : List (String × List SrcVec) → Option VecData →
    Option VecData × DataSet × UnitsSet
  | [], z => (z, [], [])
  | (pname, vs) :: rest, z =>
    let s := procVecs vs z
    let r := getDataAux rest s.1
    (r.1, (pname, s.2.1) :: r.2.1, (pname, s.2.2) :: r.2.2)

/-- Model of `NgSpice.get_data`, as a function of the plot/vector tree reported by
the engine: returns the `(data, units)` pair. -/
def get_data (plots : List (String × List SrcVec)) : DataSet × UnitsSet :=
  (getDataAux plots none).2

/-- The external-source registry `self._external_sources`: a dictionary
from node/source name to a function of simulated time. -/
def SrcRegistry : Type := String → Option (ℚ → ℚ)

/-- Model of `NgSpice.add_external_source`: `self._external_sources[name] = fun`. -/
def add_external_source (reg : SrcRegistry) (name : String) (f : ℚ → ℚ) : SrcRegistry :=
  fun n => if n = name then some f else reg n

/-- The observable outcome of one `_GetSRCData` callback invocation:
the value written through `return_value[0]`, whether the stderr warning
was written, the C return code, and the registry after the call. -/
structure SRCResult where
  return_value : ℚ
  diagnostic : Bool
  retcode : Int
  reg : SrcRegistry

/-- Model of `NgSpice._GetSRCData` (lines 400-409): a registered name evaluates its
function at `actual_time`; an unregistered name writes a warning to stderr,
installs `lambda t: 0.0` under that name, writes back `0.0` and returns 1. -/
def GetSRCData (reg : SrcRegistry) (node_name : String) (actual_time : ℚ) : SRCResult :=
  match reg node_name with
  | some f => ⟨f actual_time, false, 0, reg⟩
  | none => ⟨0, true, 1, add_external_source reg node_name fun _ => 0⟩

/-- The per-instance state of an `NgSpice` object that survives
attach/detach: the external-source registry, the output sink `_ng_out`
(opaque, identified by a tag), the thread callback tag, and whether the
shared library is currently loaded. -/
structure Handle where
  external_sources : SrcRegistry
  ng_out : Nat
  thread_callback : Nat
  lib_loaded : Bool

/-- Model of `NgSpice.__detach`: sends `quit` to the engine and `dlclose`s the
library handle; instance attributes other than the loaded library are
untouched. -/
def ngDetach (h : Handle) : Handle :=
  { h with lib_loaded := false }

/-- Model of `NgSpice.__attach`: loads the shared library and calls `ngSpice_Init`
and `ngSpice_Init_Sync`, registering the callback table with `self` as the
context object; instance attributes other than the loaded library are
untouched. -/
def ngAttach (h : Handle) : Handle :=
  { h with lib_loaded := true }

/-- Model of `NgSpice.reset`: `self.__detach(); self.__attach()`. -/
def ngReset (h : Handle) : Handle :=
  ngAttach (ngDetach h)

/-- Construction errors `NgSpice.__init__` can raise. -/
inductive InitError : Type
  | oserror
  | fileNotFoundError
deriving DecidableEq

/-- Process-wide state: which handle id the engine's global callback
registration (`ngSpice_Init`'s context object) currently points at, the
next fresh handle id, and the live handles. -/
structure ProcState where
  engine_context : Option Nat
  next_id : Nat
  handles : Nat → Option Handle

/-- The platforms `__init__` knows a library loader for. -/
def known_oses : List String := ["Windows", "Linux", "FreeBSD"]

/-- Model of `NgSpice.__init__` at process level: build a fresh instance (empty
external-source registry, output sink defaulting to the devnull sink 0),
fail with `OSError` on an unknown platform or `FileNotFoundError` when no
library file exists on the search path, then `__attach`, which re-points
the process-global engine callback context at the new instance.  No check
of `engine_context` is made: an already-attached handle is silently
clobbered. -/
def ngspiceNew (running_os : String) (lib_found : Bool) (output : Option Nat)
    (p : ProcState) : Except InitError (Nat × ProcState) :=
  if running_os ∉ known_oses then .error .oserror
  else if lib_found = false then .error .fileNotFoundError
  else
    let h : Handle :=
      ngAttach { external_sources := fun _ => none, ng_out := output.getD 0,
                 thread_callback := 0, lib_loaded := false }
    .ok (p.next_id,
      { engine_context := some p.next_id,
        next_id := p.next_id + 1,
        handles := fun i => if i = p.next_id then some h else p.handles i })

/-- The native engine as an opaque environment: the status each
`ngSpice_Command` call reports, the output lines it emits through the
`_SendChar` callback during that command, the status `ngSpice_Circ`
reports for a given netlist array, and the plot/vector tree that
`ngSpice_AllPlots`/`ngSpice_AllVecs`/`ngGet_Vec_Info` expose afterwards. -/
structure Engine where
  command_status : String → Int
  command_output : String → List String
  circ_status : List String → Int
  plots : List (String × List SrcVec)

/-- The wrapper state the command path touches: `self._msg_queue`
(a FIFO of lines enqueued by `_SendChar`). -/
structure MsgState where
  msg_queue : List String
deriving DecidableEq

/-- Model of `NgSpice._msg_queue_flush`: drain the queue, discarding everything. -/
def msg_queue_flush (st : MsgState) : MsgState :=
  { st with msg_queue := [] }

/-- Model of `NgSpice.command` (lines 227-229): flush the message queue, then call
`ngSpice_Command`, during which the engine emits its output lines through
`_SendChar` (each one enqueued).  The Python function has no `return`
statement: the status `ngSpice_Command` reports is discarded and the call
evaluates to `None` (modelled as `none`). -/
def ngCommand (e : Engine) (st : MsgState) (cmd : String) : MsgState × Option Int :=
  let st1 := msg_queue_flush st
  ({ st1 with msg_queue := st1.msg_queue ++ e.command_output cmd }, none)

/-- A netlist argument: a file path (string) or a list of lines. -/
inductive Netlist : Type
  | path (s : String)
  | lines (ls : List String)

/-- Model of `NgSpice.load_netlist`: a string delegates to `command('source <path>')`
(whose value is `None`); a list of lines is marshalled and passed to
`ngSpice_Circ`, whose integer status is returned. -/
def load_netlist (e : Engine) (st : MsgState) : Netlist → MsgState × Option Int
  | .path s => ngCommand e st ("source " ++ s)
  | .lines ls => (st, some (e.circ_status ls))

/-- Python truthiness of the values the run path tests with `if`:
`None` and `0` are falsy, any other integer is truthy. -/
def truthy : Option Int → Bool
  | none => false
  | some n => n != 0

/-- Model of `NgSpice.__run`: optionally load the netlist and abort with status 1
when the load result is truthy, then issue `run`/`bg_run` through
`command` and abort with status 1 when that result is truthy; otherwise
fall off the end, returning `None`. -/
def ngRunPriv (e : Engine) (st : MsgState) (netlist : Option Netlist)
    (background : Bool) : MsgState × Option Int :=
  let cmd := if background then "bg_run" else "run"
  match netlist with
  | some nl =>
    let p := load_netlist e st nl
    if truthy p.2 then (p.1, some 1)
    else
      let q := ngCommand e p.1 cmd
      if truthy q.2 then (q.1, some 1) else (q.1, none)
  | none =>
    let q := ngCommand e st cmd
    if truthy q.2 then (q.1, some 1) else (q.1, none)

/-- What `NgSpice.run` returns: the empty dictionary on a failed `__run`,
or the `(data, units)` pair produced by `get_data`. -/
inductive RunResult : Type
  | emptyDict
  | results (r : DataSet × UnitsSet)
deriving DecidableEq

/-- Model of `NgSpice.run`: run in the foreground; return `{}` when `__run` reports
a truthy status, else decode and return `get_data()`. -/
def ngRun (e : Engine) (st : MsgState) (netlist : Option Netlist) :
    MsgState × RunResult :=
  let p := ngRunPriv e st netlist false
  if truthy p.2 then (p.1, .emptyDict)
  else (p.1, .results (get_data e.plots))

/-- Python `pat in s` substring containment for the nonempty literals the
version parser uses. -/
def containsSub (s pat : String) : Bool :=
  1 < (s.splitOn pat).length

/-- The result dictionary of `NgSpice.version`; the Python code starts all
four entries at `False` and replaces the first two with strings when the
matching line is seen (`False` is modelled as `none` for those). -/
structure VersionInfo where
  ngspice : Option String
  cider : Option String
  xspice : Bool
  openmp : Bool
deriving DecidableEq

/-- One iteration of the parsing loop in `NgSpice.version`
(lines 236-244). -/
def parseVersionLine (r : VersionInfo) (s : String) : VersionInfo :=
  if containsSub s "ngspice-" then
    { r with ngspice := some ((((s.splitOn "-").getD 1 "").splitOn ":").headD "" |>.trim) }
  else if containsSub s "CIDER" then
    { r with cider := some ((((s.splitOn "CIDER").getD 1 "").splitOn "(").headD "" |>.trim) }
  else if containsSub s "XSPICE" then
    { r with xspice := containsSub s "extensions included" }
  else if containsSub s "OpenMP" then
    { r with openmp := containsSub s "enabled" }
  else r

/-- Model of `NgSpice.version`: issue `version -f` through `command` (which flushes
the queue first), then drain the queue in FIFO order through the parsing
loop; returns the drained state and the result dictionary. -/
def ngVersion (e : Engine) (st : MsgState) : MsgState × VersionInfo :=
  let p := ngCommand e st "version -f"
  (⟨[]⟩, p.1.msg_queue.foldl parseVersionLine ⟨none, none, false, false⟩)

/-- A decoded vector viewed as a sequence of complex numbers: a real
array is the sequence with all imaginary parts zero. -/
def asComplex : VecData → List (ℚ × ℚ)
  | .real xs => xs.map fun r => (r, 0)
  | .comp xs => xs

/-- A concrete registry holding one external source named `x`. -/
def c1reg : SrcRegistry :=
  add_external_source (fun _ => none) "x" fun t => 2 * t

/-- A concrete complex-flagged vector of length 2 with interleaved buffer
[10, 20, 30, 40]. -/
def c2vec : SrcVec := ⟨true, "v(out)", 3, 2, [], [10, 20, 30, 40], 2⟩

/-- A vector whose reported type code is -1 (out of the valid 0..22
range). -/
def c3vec : SrcVec := ⟨true, "v1", -1, 1, [5], [], 1⟩

/-- A metadata-fault vector (the mixed-simulation transient the `try`
block guards against). -/
def c4bad : SrcVec := ⟨false, "ghost", 0, 1, [9], [], 1⟩

/-- A vector whose type code 23 makes the units lookup raise. -/
def c5vec : SrcVec := ⟨true, "v1", 23, 1, [1], [], 1⟩

/-- A concrete first handle, already attached, with one registered source. -/
def c6handle : Handle :=
  { external_sources := add_external_source (fun _ => none) "vin" fun t => t + 1,
    ng_out := 5, thread_callback := 0, lib_loaded := true }

/-- A process state in which handle 0 is attached and owns the engine's
callback context. -/
def c6proc : ProcState :=
  { engine_context := some 0, next_id := 1,
    handles := fun i => if i = 0 then some c6handle else none }

/-- A concrete engine whose every command reports failure status 1 and
emits no output. -/
def c7engine : Engine :=
  { command_status := fun _ => 1, command_output := fun _ => [],
    circ_status := fun _ => 0, plots := [] }

/-- A vector an engine exposes after a run, used in several concrete
scenarios. -/
def c8vec : SrcVec := ⟨true, "v(1)", 3, 1, [1, 2], [], 2⟩

/-- A concrete engine on which every command (including `source bad.cir`)
reports failure status 1, loading a netlist given as lines reports
failure status 1, and whose plot tree is nonempty. -/
def c8engine : Engine :=
  { command_status := fun _ => 1, command_output := fun _ => [],
    circ_status := fun _ => 1, plots := [("tran1", [c8vec])] }

/-- A concrete handle holding the registry `c1reg`, sink 7. -/
def c9handle : Handle :=
  { external_sources := c1reg, ng_out := 7, thread_callback := 0, lib_loaded := true }

/-- Claim C1: a name registered via `add_external_source` is evaluated at
the requested time with no diagnostic and no registry change; an
unregistered name writes back 0.0 with a diagnostic and installs a
permanent zero function, so a subsequent request for the same name writes
back 0.0 with no diagnostic and leaves the registry fixed thereafter. -/
theorem c1_external_source_callback (reg : SrcRegistry) (X Y : String)
    (fn : ℚ → ℚ) (T : ℚ) (hX : reg X = some fn) (hY : reg Y = none) :
    GetSRCData reg X T = ⟨fn T, false, 0, reg⟩
    ∧ (GetSRCData reg Y T).return_value = 0
    ∧ (GetSRCData reg Y T).diagnostic = true
    ∧ (GetSRCData reg Y T).reg Y = some (fun _ => (0 : ℚ))
    ∧ ∀ T', GetSRCData (GetSRCData reg Y T).reg Y T'
        = ⟨0, false, 0, (GetSRCData reg Y T).reg⟩ := by
  have hreg : (GetSRCData reg Y T).reg Y = some (fun _ => (0 : ℚ)) := by
    simp [GetSRCData, hY, add_external_source]
  refine ⟨by simp [GetSRCData, hX], by simp [GetSRCData, hY],
    by simp [GetSRCData, hY], hreg, fun T' => ?_⟩
  generalize GetSRCData reg Y T = r at hreg ⊢
  simp [GetSRCData, hreg]

/-- Witness for claim C1 at the concrete registry `c1reg`, registered name
`x`, unregistered name `y`, time 5. -/
theorem c1_external_source_callback_witness :
    GetSRCData c1reg "x" 5 = ⟨(fun t : ℚ => 2 * t) 5, false, 0, c1reg⟩
    ∧ (GetSRCData c1reg "y" 5).return_value = 0
    ∧ (GetSRCData c1reg "y" 5).diagnostic = true
    ∧ (GetSRCData c1reg "y" 5).reg "y" = some (fun _ => (0 : ℚ))
    ∧ ∀ T', GetSRCData (GetSRCData c1reg "y" 5).reg "y" T'
        = ⟨0, false, 0, (GetSRCData c1reg "y" 5).reg⟩ :=
  c1_external_source_callback c1reg "x" "y" (fun t => 2 * t) 5
    (by simp [c1reg, add_external_source]) (by simp [c1reg, add_external_source])

/-- Claim C9: `reset` (detach then attach) leaves the external-source
registry and the output sink unchanged, and a source registered before the
reset is still honored by the data-request callback afterwards. -/
theorem c9_reset_preserves_sources_and_sink (h : Handle) (X : String)
    (fn : ℚ → ℚ) (T : ℚ) (hX : h.external_sources X = some fn) :
    (ngReset h).external_sources = h.external_sources
    ∧ (ngReset h).ng_out = h.ng_out
    ∧ GetSRCData (ngReset h).external_sources X T
        = ⟨fn T, false, 0, h.external_sources⟩ :=
  ⟨rfl, rfl, by simp [ngReset, ngAttach, ngDetach, GetSRCData, hX]⟩

/-- Witness for claim C9 at the concrete handle `c9handle`. -/
theorem c9_reset_preserves_sources_and_sink_witness :
    (ngReset c9handle).external_sources = c9handle.external_sources
    ∧ (ngReset c9handle).ng_out = c9handle.ng_out
    ∧ GetSRCData (ngReset c9handle).external_sources "x" 5
        = ⟨(fun t : ℚ => 2 * t) 5, false, 0, c9handle.external_sources⟩ :=
  c9_reset_preserves_sources_and_sink c9handle "x" (fun t => 2 * t) 5
    (by simp [c9handle, c1reg, add_external_source])

/-- Claim C10: `command` flushes the message queue before sending the
command, so immediately afterwards the queue holds exactly the lines the
engine emitted during that command; consequently the result of `version`
is independent of whatever stale lines were queued beforehand. -/
theorem c10_command_flushes_queue (e : Engine) (st st' : MsgState) (cmd : String) :
    (ngCommand e st cmd).1.msg_queue = e.command_output cmd
    ∧ (ngVersion e st).2 = (ngVersion e st').2 :=
  ⟨rfl, rfl⟩

/-- Claim C7 (code bug): `command` has no return statement, so it always
evaluates to `None`, discarding the status `ngSpice_Command` reported; at
the concrete failing input (`c7engine` reports status 1 for `blah`) the
caller receives `none`, not the failure status.  The wrapper's own
`__run` tests `if self.command(command):`, expecting the status, so that
error branch is dead. -/
theorem c7_command_status_discarded :
    (∀ (e : Engine) (st : MsgState) (cmd : String), (ngCommand e st cmd).2 = none)
    ∧ c7engine.command_status "blah" = 1
    ∧ (ngCommand c7engine ⟨[]⟩ "blah").2 = none :=
  ⟨fun _ _ _ => rfl, rfl, rfl⟩

/-- Claim C8 (code bug): when the netlist is a file path whose `source`
command fails (status 1, reported by `c8engine`), `run` does not return a
failure indication and still invokes the result decoder, because
`load_netlist` propagates `command`'s `None` and the failure is never
seen; by contrast a failing lines netlist does make `run` return the
empty dictionary without decoding. -/
theorem c8_path_load_failure_still_decodes :
    c8engine.command_status "source bad.cir" = 1
    ∧ (ngRun c8engine ⟨[]⟩ (some (.path "bad.cir"))).2
        = .results (get_data c8engine.plots)
    ∧ get_data c8engine.plots
        = ([("tran1", [("v(1)", .real [1, 2])])],
           [("tran1", [("v(1)", ("V", "voltage"))])])
    ∧ (ngRun c8engine ⟨[]⟩ (some (.lines ["* bad"]))).2 = .emptyDict := by
  refine ⟨rfl, rfl, by decide, rfl⟩

/-- Claim C6 (code bug): constructing a second NgSpice instance while one
is attached does not fail — `__init__` performs no already-attached check
and there is no EngineAlreadyAttached error anywhere in the code — it
succeeds, silently re-points the process-global engine callback context
at the new instance, and leaves the first instance's own state in place. -/
theorem c6_second_attach_not_refused :
    c6proc.engine_context = some 0
    ∧ ∃ p', ngspiceNew "Linux" true none c6proc = .ok (1, p')
        ∧ p'.engine_context = some 1
        ∧ p'.handles 0 = some c6handle := by
  refine ⟨rfl, ⟨_, rfl, rfl, ?_⟩⟩
  simp [c6proc]

/-- Claim C2: a complex-flagged vector of length N (real flag clear,
complex flag set, so the complex branch of `get_data` runs) decodes to N
complex elements whose element k has real part equal to flat source index
2k and imaginary part equal to flat source index 2k+1 — except a vector
named `frequency`, whose decoded imaginary parts are all zero regardless
of the buffer's odd-index contents. -/
theorem c2_complex_decode_interleaved (v : SrcVec) (z : Option VecData) (k : Nat)
    (hq : v.query_ok = true) (hr : is_real v.v_flags = 0)
    (hc : is_complex v.v_flags ≠ 0)
    (hl : v.v_compdata.length = 2 * v.v_length) (hk : k < v.v_length) :
    ∃ re im,
      v.v_compdata[2 * k]? = some re
      ∧ v.v_compdata[2 * k + 1]? = some im
      ∧ (procVec v z).2.1
          = some (v.v_name, complexDecode v.v_name v.v_compdata v.v_length)
      ∧ (asComplex (complexDecode v.v_name v.v_compdata v.v_length)).length
          = v.v_length
      ∧ (asComplex (complexDecode v.v_name v.v_compdata v.v_length))[k]?
          = some (re, if v.v_name = "frequency" then 0 else im) := by
  have h2k : 2 * k < v.v_compdata.length := by omega
  have h2k1 : 2 * k + 1 < v.v_compdata.length := by omega
  refine ⟨v.v_compdata[2 * k], v.v_compdata[2 * k + 1],
    List.getElem?_eq_getElem h2k, List.getElem?_eq_getElem h2k1, ?_, ?_, ?_⟩
  · simp [procVec, hq, hr, hc]
  · by_cases hf : v.v_name = "frequency" <;>
      simp [complexDecode, asComplex, hf]
  · by_cases hf : v.v_name = "frequency" <;>
      simp [complexDecode, asComplex, hf, List.getElem?_map,
        List.getElem?_range, hk, List.getElem?_eq_getElem, h2k, h2k1]

/-- Witness for claim C2 at the concrete vector `c2vec`, element 1. -/
theorem c2_complex_decode_interleaved_witness :
    ∃ re im,
      c2vec.v_compdata[2 * 1]? = some re
      ∧ c2vec.v_compdata[2 * 1 + 1]? = some im
      ∧ (procVec c2vec none).2.1
          = some (c2vec.v_name, complexDecode c2vec.v_name c2vec.v_compdata c2vec.v_length)
      ∧ (asComplex (complexDecode c2vec.v_name c2vec.v_compdata c2vec.v_length)).length
          = c2vec.v_length
      ∧ (asComplex (complexDecode c2vec.v_name c2vec.v_compdata c2vec.v_length))[1]?
          = some (re, if c2vec.v_name = "frequency" then 0 else im) :=
  c2_complex_decode_interleaved c2vec none 1 rfl (by decide) (by decide)
    (by decide) (by decide)

/-- When a vector produced a data entry, the body of the decode loop
reached line 346, so its units entry is exactly the (possibly failing)
catalog lookup at its type code. -/
theorem procVec_units_eq (v : SrcVec) (z : Option VecData) (d : String × VecData)
    (hd : (procVec v z).2.1 = some d) :
    (procVec v z).2.2 = (unitsTag v.v_type).map fun ut => (v.v_name, ut.1, ut.2) := by
  by_cases hq : v.query_ok = false
  · simp [procVec, hq] at hd
  · by_cases hr : is_real v.v_flags ≠ 0
    · simp [procVec, hq, hr]
    · by_cases hc : is_complex v.v_flags ≠ 0
      · simp [procVec, hq, hr, hc]
      · cases z with
        | none => simp [procVec, hq, hr, hc] at hd
        | some zv => simp [procVec, hq, hr, hc]

/-- An in-range type code (0..22) looks up exactly the catalog entry at
that code. -/
theorem unitsTag_inrange (c : Int) (h0 : 0 ≤ c) (h22 : c ≤ 22) :
    unitsTag c = some (_UNITS[c.toNat]?.getD "", _TYPE[c.toNat]?.getD "") := by
  interval_cases c <;> decide

/-- A negative type code in -23..-1 wraps around (Python negative
indexing) and yields the catalog entry at code + 23. -/
theorem unitsTag_negative_wrap (c : Int) (hm : -23 ≤ c) (h1 : c ≤ -1) :
    unitsTag c = some (_UNITS[(c + 23).toNat]?.getD "", _TYPE[(c + 23).toNat]?.getD "") := by
  interval_cases c <;> decide

/-- A type code above 22 or below -23 makes the catalog lookup raise
IndexError, so no units tag is produced. -/
theorem unitsTag_out_of_range (c : Int) (h : 22 < c ∨ c < -23) :
    unitsTag c = none := by
  have hU : _UNITS.length = 23 := by decide
  have hT : _TYPE.length = 23 := by decide
  rcases h with h | h
  · have h0 : 0 ≤ c := by omega
    have : _UNITS.length ≤ c.toNat := by omega
    have hx : _UNITS[c.toNat]? = none := List.getElem?_eq_none this
    simp [unitsTag, pyIndex, h0, hx]
  · have h0 : ¬ 0 ≤ c := by omega
    have h1 : ¬ 0 ≤ c + (_UNITS.length : Int) := by rw [hU]; push_cast; omega
    have h2 : ¬ 0 ≤ c + (_TYPE.length : Int) := by rw [hT]; push_cast; omega
    simp [unitsTag, pyIndex, h0, h1, h2]

/-- Claim C3 (amended): for a vector that was decoded (produced a data
entry), a type code in 0..22 yields exactly the catalog entry at that
code, and a code above 22 or below -23 makes the units lookup fail so no
tag of another code is produced; however a negative code in -23..-1 does
NOT fail: Python's negative list indexing silently yields the catalog
entry at code + 23. -/
theorem c3_catalog_indexing (v : SrcVec) (z : Option VecData) (d : String × VecData)
    (hd : (procVec v z).2.1 = some d) :
    (0 ≤ v.v_type → v.v_type ≤ 22 →
      (procVec v z).2.2 = some (v.v_name,
        _UNITS[v.v_type.toNat]?.getD "", _TYPE[v.v_type.toNat]?.getD ""))
    ∧ (-23 ≤ v.v_type → v.v_type ≤ -1 →
      (procVec v z).2.2 = some (v.v_name,
        _UNITS[(v.v_type + 23).toNat]?.getD "", _TYPE[(v.v_type + 23).toNat]?.getD ""))
    ∧ (22 < v.v_type ∨ v.v_type < -23 → (procVec v z).2.2 = none) := by
  have he := procVec_units_eq v z d hd
  refine ⟨fun h0 h22 => ?_, fun hm h1 => ?_, fun h => ?_⟩
  · rw [he, unitsTag_inrange v.v_type h0 h22]; rfl
  · rw [he, unitsTag_negative_wrap v.v_type hm h1]; rfl
  · rw [he, unitsTag_out_of_range v.v_type h]; rfl

/-- Witness for claim C3 (amended) at the concrete real vector `c8vec`
(type code 3: volts). -/
theorem c3_catalog_indexing_witness :
    ((0 : Int) ≤ c8vec.v_type ∧ c8vec.v_type ≤ 22)
    ∧ ((0 ≤ c8vec.v_type → c8vec.v_type ≤ 22 →
      (procVec c8vec none).2.2 = some (c8vec.v_name,
        _UNITS[c8vec.v_type.toNat]?.getD "", _TYPE[c8vec.v_type.toNat]?.getD ""))
    ∧ (-23 ≤ c8vec.v_type → c8vec.v_type ≤ -1 →
      (procVec c8vec none).2.2 = some (c8vec.v_name,
        _UNITS[(c8vec.v_type + 23).toNat]?.getD "", _TYPE[(c8vec.v_type + 23).toNat]?.getD ""))
    ∧ (22 < c8vec.v_type ∨ c8vec.v_type < -23 → (procVec c8vec none).2.2 = none)) :=
  ⟨by decide, c3_catalog_indexing c8vec none (c8vec.v_name, .real [1, 2]) (by decide)⟩

/-- Counterexample to claim C3 as stated: the out-of-range type code -1
does not make decoding fail; the vector is decoded and its units tag is
`("Q", "charge")` — the catalog entry of the different code 22 — because
Python list indexing wraps negative indices. -/
theorem c3_catalog_indexing_counterexample :
    (¬ (0 ≤ c3vec.v_type ∧ c3vec.v_type ≤ 22))
    ∧ (get_data [("op1", [c3vec])]).2 = [("op1", [("v1", "Q", "charge")])]
    ∧ _UNITS[22]? = some "Q" ∧ _TYPE[22]? = some "charge" := by
  decide

/-- A vector whose metadata query raises leaves the loop state untouched
and contributes nothing. -/
theorem procVec_query_fail (bad : SrcVec) (h : bad.query_ok = false)
    (z : Option VecData) : procVec bad z = (z, none, none) := by
  simp [procVec, h]

/-- Deleting a metadata-fault vector anywhere in a plot's vector list
does not change the decode of that list. -/
theorem procVecs_skip (bad : SrcVec) (h : bad.query_ok = false)
    (pre suf : List SrcVec) (z : Option VecData) :
    procVecs (pre ++ bad :: suf) z = procVecs (pre ++ suf) z := by
  induction pre generalizing z with
  | nil => simp [procVecs, procVec_query_fail bad h]
  | cons a pre ih => simp [procVecs, ih]

/-- Claim C4 (amended): a metadata-query fault on one vector does not
abort the decode — `get_data` returns exactly what it would return had
the faulting vector been absent, so every other vector of every plot is
decoded and returned unaffected; by the same equality, no aggregate
warning or count of skipped vectors is surfaced to the caller: the skip
is completely silent. -/
theorem c4_fault_skipped_silently (bad : SrcVec) (hbad : bad.query_ok = false)
    (plots1 plots2 : List (String × List SrcVec)) (pname : String)
    (pre suf : List SrcVec) :
    get_data (plots1 ++ (pname, pre ++ bad :: suf) :: plots2)
      = get_data (plots1 ++ (pname, pre ++ suf) :: plots2) := by
  have haux : ∀ (l1 : List (String × List SrcVec)) (z : Option VecData),
      getDataAux (l1 ++ (pname, pre ++ bad :: suf) :: plots2) z
        = getDataAux (l1 ++ (pname, pre ++ suf) :: plots2) z := by
    intro l1
    induction l1 with
    | nil => intro z; simp [getDataAux, procVecs_skip bad hbad]
    | cons p l1 ih => intro z; cases p; simp [getDataAux, ih]
  unfold get_data
  rw [haux plots1 none]

/-- Witness for claim C4 (amended): with the fault vector `c4bad` after
the good vector `c8vec`, the decode equals the decode without it. -/
theorem c4_fault_skipped_silently_witness :
    get_data [("tran1", [c8vec] ++ c4bad :: [])]
      = get_data [("tran1", [c8vec] ++ [])] :=
  c4_fault_skipped_silently c4bad rfl [] [] "tran1" [c8vec] []

/-- Counterexample to claim C4 as stated: the claim requires an aggregate
warning — a count or record of the skipped vectors — to be surfaced to
the caller, but `get_data` returns bit-identical output whether the fault
vector was skipped (left list, one skip) or never present (right list, no
skips), so nothing surfaced to the caller records the skip: the bare
`except: pass` swallows it. -/
theorem c4_fault_skipped_silently_counterexample :
    get_data [("tran1", [c8vec, c4bad])] = get_data [("tran1", [c8vec])] := by
  decide

/-- A type code in -23..22 never makes the catalog lookup raise. -/
theorem unitsTag_isSome_of_inrange (c : Int) (hm : -23 ≤ c) (h22 : c ≤ 22) :
    ∃ ut, unitsTag c = some ut := by
  by_cases h0 : 0 ≤ c
  · exact ⟨_, unitsTag_inrange c h0 h22⟩
  · exact ⟨_, unitsTag_negative_wrap c hm (by omega)⟩

/-- A vector that produced a data entry stored it under its own name. -/
theorem procVec_data_name (v : SrcVec) (z : Option VecData) (d : String × VecData)
    (hd : (procVec v z).2.1 = some d) : d.1 = v.v_name := by
  by_cases hq : v.query_ok = false
  · simp [procVec, hq] at hd
  · by_cases hr : is_real v.v_flags ≠ 0
    · simp [procVec, hq, hr] at hd
      simp [← hd]
    · by_cases hc : is_complex v.v_flags ≠ 0
      · simp [procVec, hq, hr, hc] at hd
        simp [← hd]
      · cases z with
        | none => simp [procVec, hq, hr, hc] at hd
        | some zv =>
          simp [procVec, hq, hr, hc] at hd
          simp [← hd]

/-- A vector that produced no data entry produced no units entry either. -/
theorem procVec_none (v : SrcVec) (z : Option VecData)
    (hd : (procVec v z).2.1 = none) : (procVec v z).2.2 = none := by
  by_cases hq : v.query_ok = false
  · simp [procVec, hq]
  · by_cases hr : is_real v.v_flags ≠ 0
    · simp [procVec, hq, hr] at hd
    · by_cases hc : is_complex v.v_flags ≠ 0
      · simp [procVec, hq, hr, hc] at hd
      · cases z with
        | none => simp [procVec, hq, hr, hc]
        | some zv => simp [procVec, hq, hr, hc] at hd

/-- Per-vector key discipline: the units name list is a sublist of the
data name list, with equality when the type code is in range. -/
theorem procVec_units_names (v : SrcVec) (z : Option VecData) :
    (((procVec v z).2.2.toList.map Prod.fst).Sublist
      ((procVec v z).2.1.toList.map Prod.fst))
    ∧ (-23 ≤ v.v_type → v.v_type ≤ 22 →
        (procVec v z).2.2.toList.map Prod.fst
          = (procVec v z).2.1.toList.map Prod.fst) := by
  cases hd : (procVec v z).2.1 with
  | none => rw [procVec_none v z hd]; simp
  | some d =>
    rw [procVec_units_eq v z d hd]
    have hname := procVec_data_name v z d hd
    constructor
    · cases hut : unitsTag v.v_type with
      | none => simp
      | some ut => simp [hname]
    · intro hm h22
      obtain ⟨ut, h⟩ := unitsTag_isSome_of_inrange v.v_type hm h22
      rw [h]
      simp [hname]

/-- Per-plot key discipline, threading the loop state. -/
theorem procVecs_units_names (vs : List SrcVec) (z : Option VecData) :
    (((procVecs vs z).2.2.map Prod.fst).Sublist ((procVecs vs z).2.1.map Prod.fst))
    ∧ ((∀ v ∈ vs, -23 ≤ v.v_type ∧ v.v_type ≤ 22) →
        (procVecs vs z).2.2.map Prod.fst = (procVecs vs z).2.1.map Prod.fst) := by
  induction vs generalizing z with
  | nil => simp [procVecs]
  | cons v vs ih =>
    obtain ⟨h1, h2⟩ := procVec_units_names v z
    obtain ⟨ih1, ih2⟩ := ih (procVec v z).1
    constructor
    · simpa [procVecs, List.map_append] using List.Sublist.append h1 ih1
    · intro hall
      have hv := hall v (by simp)
      simp only [procVecs, List.map_append]
      rw [h2 hv.1 hv.2, ih2 fun w hw => hall w (by simp [hw])]

/-- Claim C5 (amended): the data and units containers returned by
`get_data` always have identical plot-name lists, and within each plot
every vector name present in units is present in data; the two key sets
coincide whenever every vector's type code is within Python list range
(-23..22), but a vector whose units lookup raises (code above 22 or below
-23) is recorded in data and silently missing from units, because
line 345 stores the data entry before line 346 indexes the catalog. -/
theorem c5_parallel_containers (plots : List (String × List SrcVec)) :
    ((get_data plots).1.map Prod.fst = (get_data plots).2.map Prod.fst)
    ∧ List.Forall₂
        (fun (dp : String × List (String × VecData))
             (up : String × List (String × String × String)) =>
          dp.1 = up.1 ∧ (up.2.map Prod.fst).Sublist (dp.2.map Prod.fst))
        (get_data plots).1 (get_data plots).2
    ∧ ((∀ p ∈ plots, ∀ v ∈ p.2, -23 ≤ v.v_type ∧ v.v_type ≤ 22) →
        (get_data plots).1.map (fun p => (p.1, p.2.map Prod.fst))
          = (get_data plots).2.map fun p => (p.1, p.2.map Prod.fst)) := by
  have haux : ∀ (l : List (String × List SrcVec)) (z : Option VecData),
      ((getDataAux l z).2.1.map Prod.fst = (getDataAux l z).2.2.map Prod.fst)
      ∧ List.Forall₂
          (fun (dp : String × List (String × VecData))
               (up : String × List (String × String × String)) =>
            dp.1 = up.1 ∧ (up.2.map Prod.fst).Sublist (dp.2.map Prod.fst))
          (getDataAux l z).2.1 (getDataAux l z).2.2
      ∧ ((∀ p ∈ l, ∀ v ∈ p.2, -23 ≤ v.v_type ∧ v.v_type ≤ 22) →
          (getDataAux l z).2.1.map (fun p => (p.1, p.2.map Prod.fst))
            = (getDataAux l z).2.2.map fun p => (p.1, p.2.map Prod.fst)) := by
    intro l
    induction l with
    | nil => exact fun z => ⟨rfl, .nil, fun _ => rfl⟩
    | cons p rest ih =>
      intro z
      obtain ⟨pname, vs⟩ := p
      obtain ⟨hs, hall⟩ := procVecs_units_names vs z
      obtain ⟨ih1, ih2, ih3⟩ := ih (procVecs vs z).1
      refine ⟨by simp [getDataAux, ih1], ?_, ?_⟩
      · exact List.Forall₂.cons ⟨rfl, hs⟩ ih2
      · intro h
        simp only [getDataAux, List.map_cons]
        rw [hall (fun v hv => h (pname, vs) (by simp) v hv),
          ih3 fun q hq v hv => h q (by simp [hq]) v hv]
  exact haux plots none

/-- Witness for claim C5 at the concrete single-plot tree containing the
in-range vector `c8vec`. -/
theorem c5_parallel_containers_witness :
    ((get_data [("p", [c8vec])]).1.map Prod.fst
        = (get_data [("p", [c8vec])]).2.map Prod.fst)
    ∧ List.Forall₂
        (fun (dp : String × List (String × VecData))
             (up : String × List (String × String × String)) =>
          dp.1 = up.1 ∧ (up.2.map Prod.fst).Sublist (dp.2.map Prod.fst))
        (get_data [("p", [c8vec])]).1 (get_data [("p", [c8vec])]).2
    ∧ ((get_data [("p", [c8vec])]).1.map (fun p => (p.1, p.2.map Prod.fst))
        = (get_data [("p", [c8vec])]).2.map fun p => (p.1, p.2.map Prod.fst)) :=
  ⟨(c5_parallel_containers [("p", [c8vec])]).1,
   (c5_parallel_containers [("p", [c8vec])]).2.1,
   (c5_parallel_containers [("p", [c8vec])]).2.2 (by decide)⟩

/-- Counterexample to claim C5 as stated: after decoding `c5vec` (type
code 23, units lookup raises after the data entry was stored), the data
container holds vector name v1 under plot p while the units container
holds no vector name at all — the two containers are not keyed
identically. -/
theorem c5_parallel_containers_counterexample :
    ((get_data [("p", [c5vec])]).1.map fun p => (p.1, p.2.map Prod.fst))
        = [("p", ["v1"])]
    ∧ ((get_data [("p", [c5vec])]).2.map fun p => (p.1, p.2.map Prod.fst))
        = [("p", [])] := by
  decide
